import Mathlib

/-!
# HA on/off light example (`esp_zb_light.c`): commissioning handler and endpoint cascade

A shallow embedding of the control logic of
`examples/esp_zigbee_HA_sample/HA_on_off_light/main/esp_zb_light.c`:

* `toggle_endpoint` and `attr_cb` (the endpoint cascade) act on the global array
  `endpoint_values`;
* `esp_zb_app_signal_handler` and `bdb_start_top_level_commissioning_cb`
  (network commissioning).

Calls into the Zigbee stack and the logger are not executed; each one is appended, in
program order, to the `calls` trace of the state.  An array access outside
`endpoint_values`, a remainder by zero and a failed `ESP_ERROR_CHECK` end the
execution: the embedded function then returns `none`.
-/

namespace EspZbLight

/-! ## Constants -/

/-- Number of light endpoints, `#define LIGHT_ENDPOINTS 35` in the source. -/
def LIGHT_ENDPOINTS : Nat := 35

/-- Build-time constants used by the source.  All but `LIGHT_ENDPOINTS` are macros and
enumerators of headers (`esp_zb_light.h`, the Zigbee SDK, ESP-IDF) that the source file
only includes, so they are parameters of the embedding.  `LIGHT_ENDPOINTS` is a
parameter as well, so that properties can be stated for every ring size; the source
fixes it to `EspZbLight.LIGHT_ENDPOINTS`. -/
structure Consts where
  HA_ESP_LIGHT_ENDPOINT : Nat
  LIGHT_ENDPOINTS : Nat
  ESP_ZB_ZCL_CLUSTER_ID_ON_OFF : Nat
  ESP_ZB_ZCL_ATTR_ON_OFF_ON_OFF_ID : Nat
  ESP_ZB_ZCL_CLUSTER_SERVER_ROLE : Nat
  ESP_ZB_BDB_MODE_INITIALIZATION : Nat
  ESP_ZB_BDB_MODE_NETWORK_STEERING : Nat
  ESP_OK : Int
deriving DecidableEq, Repr

/-- A sample build: first endpoint id 10, the source's 35 endpoints, and small distinct
numbers for the header constants. -/
def sampleConsts : Consts where
  HA_ESP_LIGHT_ENDPOINT := 10
  LIGHT_ENDPOINTS := LIGHT_ENDPOINTS
  ESP_ZB_ZCL_CLUSTER_ID_ON_OFF := 6
  ESP_ZB_ZCL_ATTR_ON_OFF_ON_OFF_ID := 0
  ESP_ZB_ZCL_CLUSTER_SERVER_ROLE := 1
  ESP_ZB_BDB_MODE_INITIALIZATION := 0
  ESP_ZB_BDB_MODE_NETWORK_STEERING := 2
  ESP_OK := 0

/-- Modelled from the spec: the enumeration `esp_zb_app_signal_type_t` is declared in an
SDK header that is not part of the source file.  The four enumerators are the case
labels of the `switch` in `esp_zb_app_signal_handler` (stack initialized, device first
start, device reboot, steering); `other code` stands for every remaining signal type. -/
inductive esp_zb_app_signal_type_t where
  | ESP_ZB_ZDO_SIGNAL_SKIP_STARTUP
  | ESP_ZB_BDB_SIGNAL_DEVICE_FIRST_START
  | ESP_ZB_BDB_SIGNAL_DEVICE_REBOOT
  | ESP_ZB_BDB_SIGNAL_STEERING
  | other (code : Nat)
deriving DecidableEq, Repr

/-- The two functions of the source that are handed to `esp_zb_scheduler_alarm`. -/
inductive esp_zb_callback_t where
  | toggle_endpoint
  | bdb_start_top_level_commissioning_cb
deriving DecidableEq, Repr

/-! ## Calls leaving the program -/

/-- One call made by the source into the logger or the Zigbee stack, with the values of
its arguments.  A `%s` argument of a log line is recorded by the number it is computed
from. -/
inductive Call where
  | ESP_LOGI (format : String) (args : List Int)
  | ESP_LOGW (format : String) (args : List Int)
  | esp_zb_zcl_set_attribute_val (endpoint cluster_id cluster_role attr_id value : Nat)
      (check : Bool)
  | esp_zb_scheduler_alarm (cb : esp_zb_callback_t) (param : Nat) (time : Nat)
  | esp_zb_bdb_start_top_level_commissioning (mode_mask : Nat)
  | esp_zb_get_extended_pan_id
  | esp_zb_get_pan_id
  | esp_zb_get_current_channel
deriving DecidableEq, Repr

/-- Program state: the global array `endpoint_values` (entries are `uint8_t`) and the
trace of calls made so far, oldest first. -/
structure State where
  endpoint_values : List Nat
  calls : List Call
deriving DecidableEq, Repr

/-- Initial state: `static uint8_t endpoint_values[LIGHT_ENDPOINTS] = { 0 }` and no call
made yet. -/
def State.init (K : Consts) : State :=
  { endpoint_values := List.replicate K.LIGHT_ENDPOINTS 0, calls := [] }

/-- Append one call to the trace. -/
def State.emit (s : State) (c : Call) : State :=
  { s with calls := s.calls ++ [c] }

/-- The deferred calls `(callback, argument, delay)` submitted in a trace. -/
def deferred_calls : List Call → List (esp_zb_callback_t × Nat × Nat)
  | [] => []
  | Call.esp_zb_scheduler_alarm cb param time :: cs => (cb, param, time) :: deferred_calls cs
  | _ :: cs => deferred_calls cs

/-- The modes of the commissioning commands issued in a trace. -/
def commissioning_commands : List Call → List Nat
  | [] => []
  | Call.esp_zb_bdb_start_top_level_commissioning m :: cs => m :: commissioning_commands cs
  | _ :: cs => commissioning_commands cs

/-- The outbound attribute updates `(endpoint, cluster, role, attribute, value)` of a
trace. -/
def attribute_updates : List Call → List (Nat × Nat × Nat × Nat × Nat)
  | [] => []
  | Call.esp_zb_zcl_set_attribute_val e c r a v _ :: cs => (e, c, r, a, v) :: attribute_updates cs
  | _ :: cs => attribute_updates cs

/-! ## Machine arithmetic and array accesses -/

/-- Conversion of an `int` to `uint8_t`. -/
def to_uint8 (x : Int) : Nat := (x % 256).toNat

/-- The index expression `endpoint - HA_ESP_LIGHT_ENDPOINT`, computed in `int`. -/
def index (K : Consts) (endpoint : Nat) : Int :=
  (endpoint : Int) - (K.HA_ESP_LIGHT_ENDPOINT : Int)

/-- Read `a[i]`; `none` outside the array. -/
def read_at (a : List Nat) (i : Int) : Option Nat :=
  if 0 ≤ i then a[i.toNat]? else none

/-- Write `a[i] = v`; `none` outside the array. -/
def write_at (a : List Nat) (i : Int) (v : Nat) : Option (List Nat) :=
  if 0 ≤ i ∧ i.toNat < a.length then some (a.set i.toNat v) else none

/-- The `int` expression
`(((endpoint - HA_ESP_LIGHT_ENDPOINT) + 1) % LIGHT_ENDPOINTS) + HA_ESP_LIGHT_ENDPOINT`
of `attr_cb`; the remainder truncates toward zero. -/
def next_endpoint_expr (K : Consts) (endpoint : Int) : Int :=
  Int.tmod ((endpoint - (K.HA_ESP_LIGHT_ENDPOINT : Int)) + 1) (K.LIGHT_ENDPOINTS : Int)
    + (K.HA_ESP_LIGHT_ENDPOINT : Int)

/-- The value of `uint8_t next_endpoint` in `attr_cb`: the expression narrowed to 8
bits. -/
def next_endpoint (K : Consts) (endpoint : Nat) : Nat :=
  to_uint8 (next_endpoint_expr K (endpoint : Int))

/-! ## The functions of the source -/

/-- Source function `bdb_start_top_level_commissioning_cb(mode_mask)`: issues the
commissioning command; `ret` is what the stack returns, and `ESP_ERROR_CHECK` aborts
unless it is `ESP_OK`. -/
def bdb_start_top_level_commissioning_cb (K : Consts) (ret : Int) (mode_mask : Nat)
    (s : State) : Option State :=
  let s1 := s.emit (Call.esp_zb_bdb_start_top_level_commissioning mode_mask)
  if ret = K.ESP_OK then some s1 else none

/-- Source function `toggle_endpoint(endpoint)`. -/
def toggle_endpoint (K : Consts) (endpoint : Nat) (s : State) : Option State := do
  let cur ← read_at s.endpoint_values (index K endpoint)
  let value : Nat := if cur ≠ 0 then 0 else 1
  let logged ← read_at s.endpoint_values (index K endpoint)
  let s1 := s.emit (Call.ESP_LOGI "setting endpoint %u: %d -> %d" [endpoint, logged, value])
  let vals ← write_at s1.endpoint_values (index K endpoint) value
  let s2 : State := { s1 with endpoint_values := vals }
  let reported ← read_at s2.endpoint_values (index K endpoint)
  pure (s2.emit (Call.esp_zb_zcl_set_attribute_val endpoint K.ESP_ZB_ZCL_CLUSTER_ID_ON_OFF
    K.ESP_ZB_ZCL_CLUSTER_SERVER_ROLE K.ESP_ZB_ZCL_ATTR_ON_OFF_ON_OFF_ID reported false))

set_option linter.unusedVariables false in
/-- Source function `attr_cb(status, endpoint, cluster_id, attr_id, new_value)`;
`new_value` is the byte the pointer argument points to. -/
def attr_cb (K : Consts) (status endpoint cluster_id attr_id new_value : Nat) (s : State) :
    Option State :=
  if cluster_id = K.ESP_ZB_ZCL_CLUSTER_ID_ON_OFF then
    let value := new_value
    if attr_id = K.ESP_ZB_ZCL_ATTR_ON_OFF_ON_OFF_ID then
      if K.LIGHT_ENDPOINTS = 0 then none
      else do
        let next_endpoint := next_endpoint K endpoint
        let logged ← read_at s.endpoint_values (index K endpoint)
        let s1 := s.emit (Call.ESP_LOGI "endpoint %u on/off light set %d -> %d"
          [endpoint, logged, value])
        let s2 := s1.emit (Call.esp_zb_scheduler_alarm esp_zb_callback_t.toggle_endpoint
          next_endpoint 0)
        let vals ← write_at s2.endpoint_values (index K endpoint) value
        pure { s2 with endpoint_values := vals }
    else some s
  else
    some (s.emit (Call.ESP_LOGI "cluster:0x%x, attribute:0x%x changed " [cluster_id, attr_id]))

/-- Format string of the log line written after a successful join.  Its arguments come
from `esp_zb_get_extended_pan_id`, `esp_zb_get_pan_id` and `esp_zb_get_current_channel`
and are not recorded. -/
def joined_format : String :=
  "Joined network successfully (Extended PAN ID: %02x:%02x:%02x:%02x:%02x:%02x:%02x:%02x, PAN ID: 0x%04hx, Channel:%d)"

/-- Source function `esp_zb_app_signal_handler(signal_struct)`; `sig_type` is the signal
type read through `p_app_signal` and `err_status` the field `esp_err_status`. -/
def esp_zb_app_signal_handler (K : Consts) (sig_type : esp_zb_app_signal_type_t)
    (err_status : Int) (s : State) : State :=
  match sig_type with
  | esp_zb_app_signal_type_t.ESP_ZB_ZDO_SIGNAL_SKIP_STARTUP =>
    (s.emit (Call.ESP_LOGI "Zigbee stack initialized" [])).emit
      (Call.esp_zb_bdb_start_top_level_commissioning K.ESP_ZB_BDB_MODE_INITIALIZATION)
  | esp_zb_app_signal_type_t.ESP_ZB_BDB_SIGNAL_DEVICE_FIRST_START
  | esp_zb_app_signal_type_t.ESP_ZB_BDB_SIGNAL_DEVICE_REBOOT =>
    if err_status = K.ESP_OK then
      (s.emit (Call.ESP_LOGI "Start network steering" [])).emit
        (Call.esp_zb_bdb_start_top_level_commissioning K.ESP_ZB_BDB_MODE_NETWORK_STEERING)
    else
      s.emit (Call.ESP_LOGW "Failed to initialize Zigbee stack (status: %s)" [err_status])
  | esp_zb_app_signal_type_t.ESP_ZB_BDB_SIGNAL_STEERING =>
    if err_status = K.ESP_OK then
      (((s.emit Call.esp_zb_get_extended_pan_id).emit Call.esp_zb_get_pan_id).emit
        Call.esp_zb_get_current_channel).emit
        (Call.ESP_LOGI joined_format [])
    else
      (s.emit (Call.ESP_LOGI "Network steering was not successful (status: %s)"
        [err_status])).emit
        (Call.esp_zb_scheduler_alarm esp_zb_callback_t.bdb_start_top_level_commissioning_cb
          K.ESP_ZB_BDB_MODE_NETWORK_STEERING 1000)
  | esp_zb_app_signal_type_t.other code =>
    s.emit (Call.ESP_LOGI "ZDO signal: %s (0x%x), status: %s" [code, code, err_status])

/-- Run a deferred call: the scheduler invokes the callback with its argument. -/
def esp_zb_callback_t.invoke (K : Consts) (ret : Int) (cb : esp_zb_callback_t)
    (param : Nat) (s : State) : Option State :=
  match cb with
  | esp_zb_callback_t.toggle_endpoint => EspZbLight.toggle_endpoint K param s
  | esp_zb_callback_t.bdb_start_top_level_commissioning_cb =>
    EspZbLight.bdb_start_top_level_commissioning_cb K ret param s

/-! ## Well-formedness -/

/-- The endpoint id lies in `[HA_ESP_LIGHT_ENDPOINT, HA_ESP_LIGHT_ENDPOINT + LIGHT_ENDPOINTS)`. -/
def in_range (K : Consts) (e : Nat) : Prop :=
  K.HA_ESP_LIGHT_ENDPOINT ≤ e ∧ e < K.HA_ESP_LIGHT_ENDPOINT + K.LIGHT_ENDPOINTS

instance (K : Consts) (e : Nat) : Decidable (in_range K e) := by
  unfold in_range; infer_instance

/-- The array has its declared size and holds bytes. -/
def State.wf (K : Consts) (s : State) : Prop :=
  s.endpoint_values.length = K.LIGHT_ENDPOINTS ∧ ∀ x ∈ s.endpoint_values, x < 256

instance (K : Consts) (s : State) : Decidable (State.wf K s) := by
  unfold State.wf; infer_instance

/-- The build of the spec's scenario: three endpoints with ids 10, 11, 12; the header
constants are those of the sample build. -/
def scenarioConsts : Consts :=
  { sampleConsts with HA_ESP_LIGHT_ENDPOINT := 10, LIGHT_ENDPOINTS := 3 }

/-- Every entry of `endpoint_values` is 0 or 1. -/
def boolean_store (s : State) : Prop :=
  ∀ x ∈ s.endpoint_values, x = 0 ∨ x = 1

instance (s : State) : Decidable (boolean_store s) := by
  unfold boolean_store; infer_instance

/-- Scenario, step 1: the stack delivers `attr_cb(10, on/off cluster, on/off attribute, 1)`
to the three-endpoint build with an all-off store. -/
def scenario_step1 : Option State :=
  attr_cb scenarioConsts 0 10 scenarioConsts.ESP_ZB_ZCL_CLUSTER_ID_ON_OFF
    scenarioConsts.ESP_ZB_ZCL_ATTR_ON_OFF_ON_OFF_ID 1 (State.init scenarioConsts)

/-- Scenario, step 2: the scheduler runs the queued `toggle_endpoint(11)`. -/
def scenario_step2 : Option State :=
  scenario_step1.bind (esp_zb_callback_t.invoke scenarioConsts scenarioConsts.ESP_OK
    esp_zb_callback_t.toggle_endpoint 11)

/-- Scenario, step 3: the stack delivers the change of endpoint 11 as
`attr_cb(11, on/off cluster, on/off attribute, 1)`. -/
def scenario_step3 : Option State :=
  scenario_step2.bind (attr_cb scenarioConsts 0 11 scenarioConsts.ESP_ZB_ZCL_CLUSTER_ID_ON_OFF
    scenarioConsts.ESP_ZB_ZCL_ATTR_ON_OFF_ON_OFF_ID 1)

/-- Scenario, step 4: the scheduler runs the queued `toggle_endpoint(12)`. -/
def scenario_step4 : Option State :=
  scenario_step3.bind (esp_zb_callback_t.invoke scenarioConsts scenarioConsts.ESP_OK
    esp_zb_callback_t.toggle_endpoint 12)

/-- Scenario, step 5: the stack delivers the change of endpoint 12 as
`attr_cb(12, on/off cluster, on/off attribute, 1)`. -/
def scenario_step5 : Option State :=
  scenario_step4.bind (attr_cb scenarioConsts 0 12 scenarioConsts.ESP_ZB_ZCL_CLUSTER_ID_ON_OFF
    scenarioConsts.ESP_ZB_ZCL_ATTR_ON_OFF_ON_OFF_ID 1)

/-- A build with a single endpoint, id 10. -/
def singleConsts : Consts :=
  { sampleConsts with HA_ESP_LIGHT_ENDPOINT := 10, LIGHT_ENDPOINTS := 1 }

/-- A build whose 35 endpoint ids start at 250, so that they do not all fit in 8 bits. -/
def highConsts : Consts :=
  { sampleConsts with HA_ESP_LIGHT_ENDPOINT := 250, LIGHT_ENDPOINTS := 35 }

/-! ## Auxiliary lemmas -/

theorem in_range_offset {K : Consts} {e : Nat} (h : in_range K e) :
    e - K.HA_ESP_LIGHT_ENDPOINT < K.LIGHT_ENDPOINTS ∧
      e = K.HA_ESP_LIGHT_ENDPOINT + (e - K.HA_ESP_LIGHT_ENDPOINT) := by
  unfold in_range at h; omega

theorem index_offset (K : Consts) (j : Nat) :
    index K (K.HA_ESP_LIGHT_ENDPOINT + j) = (j : Int) := by
  unfold index; push_cast; ring

theorem read_at_ofNat (a : List Nat) (j : Nat) : read_at a (j : Int) = a[j]? := by
  simp [read_at]

theorem write_at_ofNat (a : List Nat) (j : Nat) (v : Nat) (h : j < a.length) :
    write_at a (j : Int) v = some (a.set j v) := by
  simp [write_at, h]

theorem set_getElem_same (a : List Nat) (j : Nat) (h : j < a.length) :
    a.set j a[j] = a := by
  apply List.ext_getElem?
  intro i
  by_cases hij : j = i
  · subst hij; rw [List.getElem?_set_self h, List.getElem?_eq_getElem h]
  · simp [List.getElem?_set, hij]

theorem deferred_calls_append (xs ys : List Call) :
    deferred_calls (xs ++ ys) = deferred_calls xs ++ deferred_calls ys := by
  induction xs with
  | nil => rfl
  | cons c cs ih => cases c <;> simp [deferred_calls, ih]

theorem commissioning_commands_append (xs ys : List Call) :
    commissioning_commands (xs ++ ys) =
      commissioning_commands xs ++ commissioning_commands ys := by
  induction xs with
  | nil => rfl
  | cons c cs ih => cases c <;> simp [commissioning_commands, ih]

theorem attribute_updates_append (xs ys : List Call) :
    attribute_updates (xs ++ ys) = attribute_updates xs ++ attribute_updates ys := by
  induction xs with
  | nil => rfl
  | cons c cs ih => cases c <;> simp [attribute_updates, ih]

/-- The complement computed by `toggle_endpoint`: `x ? 0 : 1`. -/
def complement (x : Nat) : Nat := if x ≠ 0 then 0 else 1

/-- Effect of `toggle_endpoint` on the endpoint with offset `j` inside the array. -/
theorem toggle_endpoint_offset (K : Consts) (j : Nat) (s : State)
    (h : j < s.endpoint_values.length) :
    toggle_endpoint K (K.HA_ESP_LIGHT_ENDPOINT + j) s =
      some { endpoint_values := s.endpoint_values.set j (complement s.endpoint_values[j]),
             calls := s.calls ++
               [Call.ESP_LOGI "setting endpoint %u: %d -> %d"
                  [((K.HA_ESP_LIGHT_ENDPOINT + j : Nat) : Int), (s.endpoint_values[j] : Int),
                   ((complement s.endpoint_values[j] : Nat) : Int)],
                Call.esp_zb_zcl_set_attribute_val (K.HA_ESP_LIGHT_ENDPOINT + j)
                  K.ESP_ZB_ZCL_CLUSTER_ID_ON_OFF K.ESP_ZB_ZCL_CLUSTER_SERVER_ROLE
                  K.ESP_ZB_ZCL_ATTR_ON_OFF_ON_OFF_ID (complement s.endpoint_values[j])
                  false] } := by
  simp only [toggle_endpoint, index_offset, read_at_ofNat, State.emit, complement]
  simp [List.getElem?_eq_getElem h, write_at_ofNat _ _ _ h, List.getElem?_set, h]

/-- Effect of `attr_cb` on the on/off attribute of the endpoint with offset `j` inside
the array. -/
theorem attr_cb_offset (K : Consts) (status j v : Nat) (s : State)
    (h : j < s.endpoint_values.length) (hN : K.LIGHT_ENDPOINTS ≠ 0) :
    attr_cb K status (K.HA_ESP_LIGHT_ENDPOINT + j) K.ESP_ZB_ZCL_CLUSTER_ID_ON_OFF
        K.ESP_ZB_ZCL_ATTR_ON_OFF_ON_OFF_ID v s =
      some { endpoint_values := s.endpoint_values.set j v,
             calls := s.calls ++
               [Call.ESP_LOGI "endpoint %u on/off light set %d -> %d"
                  [((K.HA_ESP_LIGHT_ENDPOINT + j : Nat) : Int), (s.endpoint_values[j] : Int),
                   (v : Int)],
                Call.esp_zb_scheduler_alarm esp_zb_callback_t.toggle_endpoint
                  (next_endpoint K (K.HA_ESP_LIGHT_ENDPOINT + j)) 0] } := by
  simp only [attr_cb, index_offset, read_at_ofNat, State.emit, if_true, if_neg hN]
  simp [List.getElem?_eq_getElem h, write_at_ofNat _ _ _ h]

/-- The successor expression on the endpoint with offset `j < LIGHT_ENDPOINTS`. -/
theorem next_endpoint_expr_offset (K : Consts) (j : Nat) :
    next_endpoint_expr K ((K.HA_ESP_LIGHT_ENDPOINT + j : Nat) : Int) =
      ((K.HA_ESP_LIGHT_ENDPOINT + (j + 1) % K.LIGHT_ENDPOINTS : Nat) : Int) := by
  unfold next_endpoint_expr
  have h1 : (((K.HA_ESP_LIGHT_ENDPOINT + j : Nat) : Int) - (K.HA_ESP_LIGHT_ENDPOINT : Int)) + 1
      = ((j + 1 : Nat) : Int) := by push_cast; ring
  rw [h1, ← Int.ofNat_tmod]
  push_cast; ring

theorem to_uint8_ofNat (n : Nat) (h : n < 256) : to_uint8 (n : Int) = n := by
  unfold to_uint8
  have : ((n : Int) % 256) = (n : Int) := Int.emod_eq_of_lt (by omega) (by omega)
  rw [this]; simp

/-- Without truncation the narrowed successor is the spec's ring successor. -/
theorem next_endpoint_offset (K : Consts) (j : Nat) (hj : j < K.LIGHT_ENDPOINTS)
    (h256 : K.HA_ESP_LIGHT_ENDPOINT + K.LIGHT_ENDPOINTS ≤ 256) :
    next_endpoint K (K.HA_ESP_LIGHT_ENDPOINT + j) =
      K.HA_ESP_LIGHT_ENDPOINT + (j + 1) % K.LIGHT_ENDPOINTS := by
  unfold next_endpoint
  rw [next_endpoint_expr_offset]
  apply to_uint8_ofNat
  have := Nat.mod_lt (j + 1) (show 0 < K.LIGHT_ENDPOINTS by omega)
  omega

/-! ## The endpoint cascade: `toggle_endpoint` and `attr_cb` -/

/-- A store of the sample build whose first entry is the byte 2. -/
def store_with_two : State :=
  { endpoint_values := 2 :: List.replicate 34 0, calls := [] }

/-- C1, as stated, fails: in the sample build endpoint 10 is in range and the store holds
35 bytes with the byte 2 at index 0; two calls of `toggle_endpoint 10` leave 1 there, so
the store after the second call differs from the store before the first. -/
theorem toggle_endpoint_twice_counterexample :
    in_range sampleConsts 10 ∧ store_with_two.wf sampleConsts ∧
      ((toggle_endpoint sampleConsts 10 store_with_two).bind
          (toggle_endpoint sampleConsts 10)).map State.endpoint_values
        = some (1 :: List.replicate 34 0) ∧
      ((toggle_endpoint sampleConsts 10 store_with_two).bind
          (toggle_endpoint sampleConsts 10)).map State.endpoint_values
        ≠ some store_with_two.endpoint_values := by
  decide

/-- C1 (amended): for every endpoint id `e` in range and every store of the declared
size, both calls of `toggle_endpoint e` return, the store after the second call is the
original store with the entry of `e` replaced by 0 if it was 0 and by 1 otherwise, and
it equals the original store exactly when that entry was 0 or 1. -/
theorem toggle_endpoint_twice (K : Consts) (e : Nat) (s : State) (he : in_range K e)
    (hlen : s.endpoint_values.length = K.LIGHT_ENDPOINTS) :
    ∃ s1 s2 x, toggle_endpoint K e s = some s1 ∧ toggle_endpoint K e s1 = some s2 ∧
      s.endpoint_values[e - K.HA_ESP_LIGHT_ENDPOINT]? = some x ∧
      s2.endpoint_values =
        s.endpoint_values.set (e - K.HA_ESP_LIGHT_ENDPOINT) (if x = 0 then 0 else 1) ∧
      (s2.endpoint_values = s.endpoint_values ↔ (x = 0 ∨ x = 1)) := by
  obtain ⟨hj, heq⟩ := in_range_offset he
  generalize e - K.HA_ESP_LIGHT_ENDPOINT = j at hj heq
  subst heq
  have hj1 : j < s.endpoint_values.length := by omega
  have h1 := toggle_endpoint_offset K j s hj1
  have hj2 : j < (s.endpoint_values.set j (complement s.endpoint_values[j])).length := by
    simpa using hj1
  have h2 := toggle_endpoint_offset K j
    { endpoint_values := s.endpoint_values.set j (complement s.endpoint_values[j]),
      calls := s.calls ++
        [Call.ESP_LOGI "setting endpoint %u: %d -> %d"
           [((K.HA_ESP_LIGHT_ENDPOINT + j : Nat) : Int), (s.endpoint_values[j] : Int),
            ((complement s.endpoint_values[j] : Nat) : Int)],
         Call.esp_zb_zcl_set_attribute_val (K.HA_ESP_LIGHT_ENDPOINT + j)
           K.ESP_ZB_ZCL_CLUSTER_ID_ON_OFF K.ESP_ZB_ZCL_CLUSTER_SERVER_ROLE
           K.ESP_ZB_ZCL_ATTR_ON_OFF_ON_OFF_ID (complement s.endpoint_values[j]) false] }
    hj2
  simp only [List.getElem_set_self, List.set_set] at h2
  have hcc : complement (complement s.endpoint_values[j]) =
      if s.endpoint_values[j] = 0 then 0 else 1 := by
    by_cases hx : s.endpoint_values[j] = 0 <;> simp [complement, hx]
  refine ⟨_, _, s.endpoint_values[j], h1, h2, List.getElem?_eq_getElem hj1, ?_, ?_⟩
  · simp only [hcc]
  · simp only [hcc]
    constructor
    · intro h
      have h3 := congrArg (fun l => l[j]?) h
      simp only [List.getElem?_set_self hj1, List.getElem?_eq_getElem hj1,
        Option.some.injEq] at h3
      by_cases hx : s.endpoint_values[j] = 0
      · exact Or.inl hx
      · right; rw [← h3]; simp [hx]
    · intro h
      have h3 : (if s.endpoint_values[j] = 0 then 0 else 1) = s.endpoint_values[j] := by
        rcases h with h | h <;> simp [h]
      rw [h3]; exact set_getElem_same _ j hj1

/-- Witness for C1 (amended): endpoint 12 of the sample build on the initial store. -/
theorem toggle_endpoint_twice_witness :
    ∃ s1 s2 x, toggle_endpoint sampleConsts 12 (State.init sampleConsts) = some s1 ∧
      toggle_endpoint sampleConsts 12 s1 = some s2 ∧
      (State.init sampleConsts).endpoint_values[12 - sampleConsts.HA_ESP_LIGHT_ENDPOINT]?
        = some x ∧
      s2.endpoint_values =
        (State.init sampleConsts).endpoint_values.set
          (12 - sampleConsts.HA_ESP_LIGHT_ENDPOINT) (if x = 0 then 0 else 1) ∧
      (s2.endpoint_values = (State.init sampleConsts).endpoint_values ↔ (x = 0 ∨ x = 1)) :=
  toggle_endpoint_twice sampleConsts 12 (State.init sampleConsts) (by decide) (by decide)

/-- C2: for every endpoint id `e` in range (with `BASE + N ≤ 256`) and every value,
`attr_cb` on the on/off cluster and attribute returns and adds exactly one deferred call
to those submitted before: `toggle_endpoint` with argument
`BASE + ((e - BASE + 1) mod N)` and delay 0; unless `N = 1` that argument differs from
`e`. -/
theorem attr_cb_schedules_next (K : Consts) (status e v : Nat) (s : State)
    (he : in_range K e) (hlen : s.endpoint_values.length = K.LIGHT_ENDPOINTS)
    (h256 : K.HA_ESP_LIGHT_ENDPOINT + K.LIGHT_ENDPOINTS ≤ 256) :
    ∃ s1, attr_cb K status e K.ESP_ZB_ZCL_CLUSTER_ID_ON_OFF
        K.ESP_ZB_ZCL_ATTR_ON_OFF_ON_OFF_ID v s = some s1 ∧
      deferred_calls s1.calls = deferred_calls s.calls ++
        [(esp_zb_callback_t.toggle_endpoint,
          K.HA_ESP_LIGHT_ENDPOINT + ((e - K.HA_ESP_LIGHT_ENDPOINT + 1) % K.LIGHT_ENDPOINTS),
          0)] ∧
      (K.LIGHT_ENDPOINTS ≠ 1 →
        K.HA_ESP_LIGHT_ENDPOINT + ((e - K.HA_ESP_LIGHT_ENDPOINT + 1) % K.LIGHT_ENDPOINTS)
          ≠ e) := by
  obtain ⟨hj, heq⟩ := in_range_offset he
  generalize e - K.HA_ESP_LIGHT_ENDPOINT = j at hj heq
  subst heq
  have hN : K.LIGHT_ENDPOINTS ≠ 0 := by omega
  refine ⟨_, attr_cb_offset K status j v s (by omega) hN, ?_, ?_⟩
  · simp [deferred_calls_append, deferred_calls, next_endpoint_offset K j hj h256]
  · intro h1 h
    have h2 : (j + 1) % K.LIGHT_ENDPOINTS = j := by omega
    by_cases hlast : j + 1 = K.LIGHT_ENDPOINTS
    · rw [hlast, Nat.mod_self] at h2; omega
    · rw [Nat.mod_eq_of_lt (by omega)] at h2; omega

/-- Witness for C2: the last endpoint (44) of the sample build wraps to the first. -/
theorem attr_cb_schedules_next_witness :
    ∃ s1, attr_cb sampleConsts 0 44 sampleConsts.ESP_ZB_ZCL_CLUSTER_ID_ON_OFF
        sampleConsts.ESP_ZB_ZCL_ATTR_ON_OFF_ON_OFF_ID 1 (State.init sampleConsts) = some s1 ∧
      deferred_calls s1.calls = deferred_calls (State.init sampleConsts).calls ++
        [(esp_zb_callback_t.toggle_endpoint,
          sampleConsts.HA_ESP_LIGHT_ENDPOINT +
            ((44 - sampleConsts.HA_ESP_LIGHT_ENDPOINT + 1) % sampleConsts.LIGHT_ENDPOINTS),
          0)] ∧
      (sampleConsts.LIGHT_ENDPOINTS ≠ 1 →
        sampleConsts.HA_ESP_LIGHT_ENDPOINT +
            ((44 - sampleConsts.HA_ESP_LIGHT_ENDPOINT + 1) % sampleConsts.LIGHT_ENDPOINTS)
          ≠ 44) :=
  attr_cb_schedules_next sampleConsts 0 44 1 (State.init sampleConsts) (by decide)
    (by decide) (by decide)

/-- C4: for every endpoint id `e` in range and every value `v`, `attr_cb` on the on/off
cluster and attribute returns a state whose store holds `v` at index `e - BASE` and
agrees with the old store at every other index (and has the same size). -/
theorem attr_cb_records_value (K : Consts) (status e v : Nat) (s : State)
    (he : in_range K e) (hlen : s.endpoint_values.length = K.LIGHT_ENDPOINTS) :
    ∃ s1, attr_cb K status e K.ESP_ZB_ZCL_CLUSTER_ID_ON_OFF
        K.ESP_ZB_ZCL_ATTR_ON_OFF_ON_OFF_ID v s = some s1 ∧
      s1.endpoint_values[e - K.HA_ESP_LIGHT_ENDPOINT]? = some v ∧
      (∀ i, i ≠ e - K.HA_ESP_LIGHT_ENDPOINT →
        s1.endpoint_values[i]? = s.endpoint_values[i]?) ∧
      s1.endpoint_values.length = s.endpoint_values.length := by
  obtain ⟨hj, heq⟩ := in_range_offset he
  generalize e - K.HA_ESP_LIGHT_ENDPOINT = j at hj heq
  subst heq
  have hj1 : j < s.endpoint_values.length := by omega
  refine ⟨_, attr_cb_offset K status j v s hj1 (by omega), ?_, ?_, ?_⟩
  · exact List.getElem?_set_self hj1
  · intro i hi
    simp [List.getElem?_set, Ne.symm hi]
  · simp

/-- Witness for C4: endpoint 20 of the sample build receives the value 1. -/
theorem attr_cb_records_value_witness :
    ∃ s1, attr_cb sampleConsts 0 20 sampleConsts.ESP_ZB_ZCL_CLUSTER_ID_ON_OFF
        sampleConsts.ESP_ZB_ZCL_ATTR_ON_OFF_ON_OFF_ID 1 (State.init sampleConsts) = some s1 ∧
      s1.endpoint_values[20 - sampleConsts.HA_ESP_LIGHT_ENDPOINT]? = some 1 ∧
      (∀ i, i ≠ 20 - sampleConsts.HA_ESP_LIGHT_ENDPOINT →
        s1.endpoint_values[i]? = (State.init sampleConsts).endpoint_values[i]?) ∧
      s1.endpoint_values.length = (State.init sampleConsts).endpoint_values.length :=
  attr_cb_records_value sampleConsts 0 20 1 (State.init sampleConsts) (by decide)
    (by decide)

/-- C5: for every endpoint id, attribute id, value and state, `attr_cb` called with a
cluster id other than the on/off cluster returns; the store is unchanged, no deferred
call is added, and the only call made is one diagnostic log line. -/
theorem attr_cb_other_cluster (K : Consts) (status e cluster_id attr_id v : Nat) (s : State)
    (hc : cluster_id ≠ K.ESP_ZB_ZCL_CLUSTER_ID_ON_OFF) :
    ∃ s1, attr_cb K status e cluster_id attr_id v s = some s1 ∧
      s1.endpoint_values = s.endpoint_values ∧
      deferred_calls s1.calls = deferred_calls s.calls ∧
      s1.calls = s.calls ++
        [Call.ESP_LOGI "cluster:0x%x, attribute:0x%x changed " [cluster_id, attr_id]] := by
  refine ⟨s.emit (Call.ESP_LOGI "cluster:0x%x, attribute:0x%x changed "
    [(cluster_id : Int), (attr_id : Int)]), by simp only [attr_cb, if_neg hc], rfl, ?_, rfl⟩
  simp [State.emit, deferred_calls_append, deferred_calls]

/-- Witness for C5: cluster 8 on an endpoint id outside the range. -/
theorem attr_cb_other_cluster_witness :
    ∃ s1, attr_cb sampleConsts 0 200 8 0 1 store_with_two = some s1 ∧
      s1.endpoint_values = store_with_two.endpoint_values ∧
      deferred_calls s1.calls = deferred_calls store_with_two.calls ∧
      s1.calls = store_with_two.calls ++
        [Call.ESP_LOGI "cluster:0x%x, attribute:0x%x changed " [((8 : Nat) : Int),
          ((0 : Nat) : Int)]] :=
  attr_cb_other_cluster sampleConsts 0 200 8 0 1 store_with_two (by decide)

/-- C6: for every store of the declared size and every `e` in range, `toggle_endpoint e`
returns; where the entry of `e` was `x`, the new store holds 1 there if `x = 0` and 0 if
`x` is non-zero, and every other entry (and the size) is unchanged. -/
theorem toggle_endpoint_complements (K : Consts) (e : Nat) (s : State) (he : in_range K e)
    (hlen : s.endpoint_values.length = K.LIGHT_ENDPOINTS) :
    ∃ s1 x, toggle_endpoint K e s = some s1 ∧
      s.endpoint_values[e - K.HA_ESP_LIGHT_ENDPOINT]? = some x ∧
      s1.endpoint_values[e - K.HA_ESP_LIGHT_ENDPOINT]? = some (if x = 0 then 1 else 0) ∧
      (∀ i, i ≠ e - K.HA_ESP_LIGHT_ENDPOINT →
        s1.endpoint_values[i]? = s.endpoint_values[i]?) ∧
      s1.endpoint_values.length = s.endpoint_values.length := by
  obtain ⟨hj, heq⟩ := in_range_offset he
  generalize e - K.HA_ESP_LIGHT_ENDPOINT = j at hj heq
  subst heq
  have hj1 : j < s.endpoint_values.length := by omega
  refine ⟨_, s.endpoint_values[j], toggle_endpoint_offset K j s hj1,
    List.getElem?_eq_getElem hj1, ?_, ?_, ?_⟩
  · rw [List.getElem?_set_self hj1]
    by_cases hx : s.endpoint_values[j] = 0 <;> simp [complement, hx]
  · intro i hi
    simp [List.getElem?_set, Ne.symm hi]
  · simp

/-- Witness for C6: endpoint 10 of the sample build on a store holding the byte 2. -/
theorem toggle_endpoint_complements_witness :
    ∃ s1 x, toggle_endpoint sampleConsts 10 store_with_two = some s1 ∧
      store_with_two.endpoint_values[10 - sampleConsts.HA_ESP_LIGHT_ENDPOINT]? = some x ∧
      s1.endpoint_values[10 - sampleConsts.HA_ESP_LIGHT_ENDPOINT]?
        = some (if x = 0 then 1 else 0) ∧
      (∀ i, i ≠ 10 - sampleConsts.HA_ESP_LIGHT_ENDPOINT →
        s1.endpoint_values[i]? = store_with_two.endpoint_values[i]?) ∧
      s1.endpoint_values.length = store_with_two.endpoint_values.length :=
  toggle_endpoint_complements sampleConsts 10 store_with_two (by decide) (by decide)

/-- C7: for every `e` in range, `toggle_endpoint e` returns; besides one log line the
only call it makes is one outbound attribute update, addressed to endpoint `e`, the
on/off cluster in the server role and the on/off attribute, carrying the value `y` it
has just stored for `e`; it adds no deferred call, and its whole effect on the state is
that store entry and these two calls (so `attr_cb` is not run). -/
theorem toggle_endpoint_reports (K : Consts) (e : Nat) (s : State) (he : in_range K e)
    (hlen : s.endpoint_values.length = K.LIGHT_ENDPOINTS) :
    ∃ s1 y line, toggle_endpoint K e s = some s1 ∧
      s1.endpoint_values[e - K.HA_ESP_LIGHT_ENDPOINT]? = some y ∧
      s1.endpoint_values = s.endpoint_values.set (e - K.HA_ESP_LIGHT_ENDPOINT) y ∧
      s1.calls = s.calls ++
        [Call.ESP_LOGI "setting endpoint %u: %d -> %d" line,
         Call.esp_zb_zcl_set_attribute_val e K.ESP_ZB_ZCL_CLUSTER_ID_ON_OFF
           K.ESP_ZB_ZCL_CLUSTER_SERVER_ROLE K.ESP_ZB_ZCL_ATTR_ON_OFF_ON_OFF_ID y false] ∧
      attribute_updates s1.calls = attribute_updates s.calls ++
        [(e, K.ESP_ZB_ZCL_CLUSTER_ID_ON_OFF, K.ESP_ZB_ZCL_CLUSTER_SERVER_ROLE,
          K.ESP_ZB_ZCL_ATTR_ON_OFF_ON_OFF_ID, y)] ∧
      deferred_calls s1.calls = deferred_calls s.calls := by
  obtain ⟨hj, heq⟩ := in_range_offset he
  generalize e - K.HA_ESP_LIGHT_ENDPOINT = j at hj heq
  subst heq
  have hj1 : j < s.endpoint_values.length := by omega
  refine ⟨_, complement s.endpoint_values[j], _, toggle_endpoint_offset K j s hj1,
    List.getElem?_set_self hj1, rfl, rfl, ?_, ?_⟩
  · simp [attribute_updates_append, attribute_updates]
  · simp [deferred_calls_append, deferred_calls]

/-- Witness for C7: endpoint 44 of the sample build on the initial store. -/
theorem toggle_endpoint_reports_witness :
    ∃ s1 y line, toggle_endpoint sampleConsts 44 (State.init sampleConsts) = some s1 ∧
      s1.endpoint_values[44 - sampleConsts.HA_ESP_LIGHT_ENDPOINT]? = some y ∧
      s1.endpoint_values = (State.init sampleConsts).endpoint_values.set
        (44 - sampleConsts.HA_ESP_LIGHT_ENDPOINT) y ∧
      s1.calls = (State.init sampleConsts).calls ++
        [Call.ESP_LOGI "setting endpoint %u: %d -> %d" line,
         Call.esp_zb_zcl_set_attribute_val 44 sampleConsts.ESP_ZB_ZCL_CLUSTER_ID_ON_OFF
           sampleConsts.ESP_ZB_ZCL_CLUSTER_SERVER_ROLE
           sampleConsts.ESP_ZB_ZCL_ATTR_ON_OFF_ON_OFF_ID y false] ∧
      attribute_updates s1.calls = attribute_updates (State.init sampleConsts).calls ++
        [(44, sampleConsts.ESP_ZB_ZCL_CLUSTER_ID_ON_OFF,
          sampleConsts.ESP_ZB_ZCL_CLUSTER_SERVER_ROLE,
          sampleConsts.ESP_ZB_ZCL_ATTR_ON_OFF_ON_OFF_ID, y)] ∧
      deferred_calls s1.calls = deferred_calls (State.init sampleConsts).calls :=
  toggle_endpoint_reports sampleConsts 44 (State.init sampleConsts) (by decide) (by decide)

/-! ## The cascade ring -/

/-- The ids `s, next(s), ..., next^(N-1)(s)` visited by the cascade from `s`, where
`next` is the successor expression of `attr_cb`. -/
def cascade_orbit (K : Consts) (s : Nat) : List Int :=
  (List.range K.LIGHT_ENDPOINTS).map (fun k => (next_endpoint_expr K)^[k] (s : Int))

theorem next_endpoint_expr_iterate (K : Consts) (j : Nat) (hj : j < K.LIGHT_ENDPOINTS)
    (k : Nat) :
    (next_endpoint_expr K)^[k] ((K.HA_ESP_LIGHT_ENDPOINT + j : Nat) : Int) =
      ((K.HA_ESP_LIGHT_ENDPOINT + (j + k) % K.LIGHT_ENDPOINTS : Nat) : Int) := by
  induction k with
  | zero => simp [Nat.mod_eq_of_lt hj]
  | succ k ih =>
    rw [Function.iterate_succ_apply', ih, next_endpoint_expr_offset, Nat.mod_add_mod]
    rfl

theorem next_endpoint_iterate (K : Consts) (j : Nat) (hj : j < K.LIGHT_ENDPOINTS)
    (h256 : K.HA_ESP_LIGHT_ENDPOINT + K.LIGHT_ENDPOINTS ≤ 256) (k : Nat) :
    (next_endpoint K)^[k] (K.HA_ESP_LIGHT_ENDPOINT + j) =
      K.HA_ESP_LIGHT_ENDPOINT + (j + k) % K.LIGHT_ENDPOINTS := by
  induction k with
  | zero => simp [Nat.mod_eq_of_lt hj]
  | succ k ih =>
    rw [Function.iterate_succ_apply', ih,
      next_endpoint_offset K _ (Nat.mod_lt _ (by omega)) h256, Nat.mod_add_mod]
    rfl

theorem ring_shift_injective (N j : Nat) (a b : Nat) (ha : a < N) (hb : b < N)
    (h : (j + a) % N = (j + b) % N) : a = b := by
  have h1 : a ≡ b [MOD N] := Nat.ModEq.add_left_cancel' j h
  unfold Nat.ModEq at h1
  rwa [Nat.mod_eq_of_lt ha, Nat.mod_eq_of_lt hb] at h1

theorem ring_shift_surjective (N j i : Nat) (hj : j < N) (hi : i < N) :
    (i + N - j) % N < N ∧ (j + (i + N - j) % N) % N = i := by
  have hN : 0 < N := by omega
  refine ⟨Nat.mod_lt _ hN, ?_⟩
  rw [Nat.add_mod_mod]
  have : j + (i + N - j) = i + N := by omega
  rw [this, Nat.add_mod_right, Nat.mod_eq_of_lt hi]

/-- C3: with `next` the successor expression computed in `attr_cb`, for every start
`s` in range the `N` ids `s, next(s), ..., next^(N-1)(s)` are pairwise distinct, they
are exactly the ids of `[BASE, BASE + N)`, and `next^N(s) = s`.  When `BASE + N ≤ 256`
the 8-bit value that `attr_cb` stores in `next_endpoint` follows the same ring. -/
theorem cascade_ring_visits_all (K : Consts) (s : Nat) (hs : in_range K s) :
    (cascade_orbit K s).Nodup ∧
      (cascade_orbit K s).length = K.LIGHT_ENDPOINTS ∧
      (∀ x : Int, x ∈ cascade_orbit K s ↔
        ((K.HA_ESP_LIGHT_ENDPOINT : Int) ≤ x ∧
          x < (K.HA_ESP_LIGHT_ENDPOINT : Int) + (K.LIGHT_ENDPOINTS : Int))) ∧
      (next_endpoint_expr K)^[K.LIGHT_ENDPOINTS] (s : Int) = (s : Int) ∧
      (K.HA_ESP_LIGHT_ENDPOINT + K.LIGHT_ENDPOINTS ≤ 256 →
        ∀ k, (((next_endpoint K)^[k] s : Nat) : Int) = (next_endpoint_expr K)^[k] (s : Int)) := by
  obtain ⟨hj, heq⟩ := in_range_offset hs
  generalize s - K.HA_ESP_LIGHT_ENDPOINT = j at hj heq
  subst heq
  refine ⟨?_, ?_, ?_, ?_, ?_⟩
  · unfold cascade_orbit
    refine List.Nodup.map_on ?_ (List.nodup_range _)
    intro a ha b hb hab
    rw [List.mem_range] at ha hb
    simp only [next_endpoint_expr_iterate K j hj] at hab
    have hab1 : (j + a) % K.LIGHT_ENDPOINTS = (j + b) % K.LIGHT_ENDPOINTS := by omega
    exact ring_shift_injective _ j a b ha hb hab1
  · simp [cascade_orbit]
  · intro x
    unfold cascade_orbit
    simp only [List.mem_map, List.mem_range, next_endpoint_expr_iterate K j hj]
    constructor
    · rintro ⟨k, hk, rfl⟩
      have := Nat.mod_lt (j + k) (show 0 < K.LIGHT_ENDPOINTS by omega)
      omega
    · rintro ⟨h1, h2⟩
      have hi : (x - (K.HA_ESP_LIGHT_ENDPOINT : Int)).toNat < K.LIGHT_ENDPOINTS := by omega
      obtain ⟨hk, hk2⟩ := ring_shift_surjective K.LIGHT_ENDPOINTS j _ hj hi
      refine ⟨_, hk, ?_⟩
      rw [hk2]; omega
  · rw [next_endpoint_expr_iterate K j hj, Nat.add_mod_right, Nat.mod_eq_of_lt hj]
  · intro h256 k
    rw [next_endpoint_expr_iterate K j hj, next_endpoint_iterate K j hj h256]

/-- Witness for C3: the cascade of the sample build started at endpoint 30. -/
theorem cascade_ring_visits_all_witness :
    (cascade_orbit sampleConsts 30).Nodup ∧
      (cascade_orbit sampleConsts 30).length = sampleConsts.LIGHT_ENDPOINTS ∧
      (∀ x : Int, x ∈ cascade_orbit sampleConsts 30 ↔
        ((sampleConsts.HA_ESP_LIGHT_ENDPOINT : Int) ≤ x ∧
          x < (sampleConsts.HA_ESP_LIGHT_ENDPOINT : Int) +
            (sampleConsts.LIGHT_ENDPOINTS : Int))) ∧
      (next_endpoint_expr sampleConsts)^[sampleConsts.LIGHT_ENDPOINTS] ((30 : Nat) : Int)
        = ((30 : Nat) : Int) ∧
      (sampleConsts.HA_ESP_LIGHT_ENDPOINT + sampleConsts.LIGHT_ENDPOINTS ≤ 256 →
        ∀ k, (((next_endpoint sampleConsts)^[k] 30 : Nat) : Int) =
          (next_endpoint_expr sampleConsts)^[k] ((30 : Nat) : Int)) :=
  cascade_ring_visits_all sampleConsts 30 (by decide)

/-! ## Network commissioning: `esp_zb_app_signal_handler` -/

theorem steering_handler_calls (K : Consts) (err : Int) (s : State) :
    (esp_zb_app_signal_handler K esp_zb_app_signal_type_t.ESP_ZB_BDB_SIGNAL_STEERING err
        s).calls =
      s.calls ++
        (if err = K.ESP_OK then
          [Call.esp_zb_get_extended_pan_id, Call.esp_zb_get_pan_id,
           Call.esp_zb_get_current_channel, Call.ESP_LOGI joined_format []]
        else
          [Call.ESP_LOGI "Network steering was not successful (status: %s)" [err],
           Call.esp_zb_scheduler_alarm
             esp_zb_callback_t.bdb_start_top_level_commissioning_cb
             K.ESP_ZB_BDB_MODE_NETWORK_STEERING 1000]) := by
  by_cases h : err = K.ESP_OK <;> simp [esp_zb_app_signal_handler, State.emit, h]

theorem steering_handler_failures (K : Consts) (err : Int) (h : err ≠ K.ESP_OK) (n : Nat)
    (s : State) :
    deferred_calls
        ((esp_zb_app_signal_handler K esp_zb_app_signal_type_t.ESP_ZB_BDB_SIGNAL_STEERING
          err)^[n] s).calls =
      deferred_calls s.calls ++
        List.replicate n (esp_zb_callback_t.bdb_start_top_level_commissioning_cb,
          K.ESP_ZB_BDB_MODE_NETWORK_STEERING, 1000) := by
  induction n with
  | zero => simp
  | succ n ih =>
    rw [Function.iterate_succ_apply', steering_handler_calls, if_neg h,
      deferred_calls_append, ih, List.replicate_succ']
    simp [deferred_calls]

/-- C8: on a steering signal the handler issues no commissioning command and leaves the
store alone; it adds no deferred call when the status is `ESP_OK` and exactly one when
it is not: `bdb_start_top_level_commissioning_cb` with argument network-steering mode
and delay 1000.  That callback, once run, issues the command "start top-level
commissioning" in the mode it is given.  The state holds no retry counter: after `n`
failed steering signals in a row, from any state, `n` such deferred calls were added. -/
theorem steering_signal_retry (K : Consts) (err : Int) (s : State) :
    commissioning_commands
        (esp_zb_app_signal_handler K esp_zb_app_signal_type_t.ESP_ZB_BDB_SIGNAL_STEERING
          err s).calls = commissioning_commands s.calls ∧
      (esp_zb_app_signal_handler K esp_zb_app_signal_type_t.ESP_ZB_BDB_SIGNAL_STEERING
          err s).endpoint_values = s.endpoint_values ∧
      deferred_calls
        (esp_zb_app_signal_handler K esp_zb_app_signal_type_t.ESP_ZB_BDB_SIGNAL_STEERING
          err s).calls =
        deferred_calls s.calls ++
          (if err = K.ESP_OK then []
           else [(esp_zb_callback_t.bdb_start_top_level_commissioning_cb,
                  K.ESP_ZB_BDB_MODE_NETWORK_STEERING, 1000)]) ∧
      (∀ t : State,
        (esp_zb_callback_t.invoke K K.ESP_OK
            esp_zb_callback_t.bdb_start_top_level_commissioning_cb
            K.ESP_ZB_BDB_MODE_NETWORK_STEERING t).map (fun u => u.calls) =
          some (t.calls ++
            [Call.esp_zb_bdb_start_top_level_commissioning
              K.ESP_ZB_BDB_MODE_NETWORK_STEERING])) ∧
      (∀ n : Nat, err ≠ K.ESP_OK →
        deferred_calls
            ((esp_zb_app_signal_handler K
              esp_zb_app_signal_type_t.ESP_ZB_BDB_SIGNAL_STEERING err)^[n] s).calls =
          deferred_calls s.calls ++
            List.replicate n (esp_zb_callback_t.bdb_start_top_level_commissioning_cb,
              K.ESP_ZB_BDB_MODE_NETWORK_STEERING, 1000)) := by
  refine ⟨?_, ?_, ?_, ?_, ?_⟩
  · rw [steering_handler_calls, commissioning_commands_append]
    by_cases h : err = K.ESP_OK <;> simp [h, commissioning_commands]
  · by_cases h : err = K.ESP_OK <;> simp [esp_zb_app_signal_handler, State.emit, h]
  · rw [steering_handler_calls, deferred_calls_append]
    by_cases h : err = K.ESP_OK <;> simp [h, deferred_calls]
  · intro t
    simp [esp_zb_callback_t.invoke, bdb_start_top_level_commissioning_cb, State.emit]
  · intro n h
    exact steering_handler_failures K err h n s

/-- Witness for C8: three failed steering signals (status -1) in the sample build. -/
theorem steering_signal_retry_witness :
    deferred_calls
        ((esp_zb_app_signal_handler sampleConsts
          esp_zb_app_signal_type_t.ESP_ZB_BDB_SIGNAL_STEERING (-1))^[3]
          (State.init sampleConsts)).calls =
      deferred_calls (State.init sampleConsts).calls ++
        List.replicate 3 (esp_zb_callback_t.bdb_start_top_level_commissioning_cb,
          sampleConsts.ESP_ZB_BDB_MODE_NETWORK_STEERING, 1000) :=
  (steering_signal_retry sampleConsts (-1) (State.init sampleConsts)).2.2.2.2 3 (by decide)

/-- C9: on a "device first start" or "device reboot" signal the handler adds no deferred
call and leaves the store alone; with status `ESP_OK` it issues exactly one command,
start top-level commissioning in network-steering mode (after one log line), and with
any other status it issues no command and only logs a warning. -/
theorem device_start_signal (K : Consts) (sig : esp_zb_app_signal_type_t) (err : Int)
    (s : State)
    (hsig : sig = esp_zb_app_signal_type_t.ESP_ZB_BDB_SIGNAL_DEVICE_FIRST_START ∨
      sig = esp_zb_app_signal_type_t.ESP_ZB_BDB_SIGNAL_DEVICE_REBOOT) :
    (esp_zb_app_signal_handler K sig err s).calls =
        s.calls ++
          (if err = K.ESP_OK then
            [Call.ESP_LOGI "Start network steering" [],
             Call.esp_zb_bdb_start_top_level_commissioning
               K.ESP_ZB_BDB_MODE_NETWORK_STEERING]
          else
            [Call.ESP_LOGW "Failed to initialize Zigbee stack (status: %s)" [err]]) ∧
      commissioning_commands (esp_zb_app_signal_handler K sig err s).calls =
        commissioning_commands s.calls ++
          (if err = K.ESP_OK then [K.ESP_ZB_BDB_MODE_NETWORK_STEERING] else []) ∧
      deferred_calls (esp_zb_app_signal_handler K sig err s).calls =
        deferred_calls s.calls ∧
      (esp_zb_app_signal_handler K sig err s).endpoint_values = s.endpoint_values := by
  have hcalls : (esp_zb_app_signal_handler K sig err s).calls =
      s.calls ++
        (if err = K.ESP_OK then
          [Call.ESP_LOGI "Start network steering" [],
           Call.esp_zb_bdb_start_top_level_commissioning
             K.ESP_ZB_BDB_MODE_NETWORK_STEERING]
        else
          [Call.ESP_LOGW "Failed to initialize Zigbee stack (status: %s)" [err]]) := by
    rcases hsig with rfl | rfl <;> by_cases h : err = K.ESP_OK <;>
      simp [esp_zb_app_signal_handler, State.emit, h]
  refine ⟨hcalls, ?_, ?_, ?_⟩
  · rw [hcalls, commissioning_commands_append]
    by_cases h : err = K.ESP_OK <;> simp [h, commissioning_commands]
  · rw [hcalls, deferred_calls_append]
    by_cases h : err = K.ESP_OK <;> simp [h, deferred_calls]
  · rcases hsig with rfl | rfl <;> by_cases h : err = K.ESP_OK <;>
      simp [esp_zb_app_signal_handler, State.emit, h]

/-- Witness for C9: a "device reboot" signal with a failure status in the sample build. -/
theorem device_start_signal_witness :
    (esp_zb_app_signal_handler sampleConsts
        esp_zb_app_signal_type_t.ESP_ZB_BDB_SIGNAL_DEVICE_REBOOT (-1)
        (State.init sampleConsts)).calls =
        (State.init sampleConsts).calls ++
          (if (-1 : Int) = sampleConsts.ESP_OK then
            [Call.ESP_LOGI "Start network steering" [],
             Call.esp_zb_bdb_start_top_level_commissioning
               sampleConsts.ESP_ZB_BDB_MODE_NETWORK_STEERING]
          else
            [Call.ESP_LOGW "Failed to initialize Zigbee stack (status: %s)" [-1]]) ∧
      commissioning_commands (esp_zb_app_signal_handler sampleConsts
        esp_zb_app_signal_type_t.ESP_ZB_BDB_SIGNAL_DEVICE_REBOOT (-1)
        (State.init sampleConsts)).calls =
        commissioning_commands (State.init sampleConsts).calls ++
          (if (-1 : Int) = sampleConsts.ESP_OK then
            [sampleConsts.ESP_ZB_BDB_MODE_NETWORK_STEERING] else []) ∧
      deferred_calls (esp_zb_app_signal_handler sampleConsts
        esp_zb_app_signal_type_t.ESP_ZB_BDB_SIGNAL_DEVICE_REBOOT (-1)
        (State.init sampleConsts)).calls =
        deferred_calls (State.init sampleConsts).calls ∧
      (esp_zb_app_signal_handler sampleConsts
        esp_zb_app_signal_type_t.ESP_ZB_BDB_SIGNAL_DEVICE_REBOOT (-1)
        (State.init sampleConsts)).endpoint_values =
        (State.init sampleConsts).endpoint_values :=
  device_start_signal sampleConsts esp_zb_app_signal_type_t.ESP_ZB_BDB_SIGNAL_DEVICE_REBOOT
    (-1) (State.init sampleConsts) (Or.inr rfl)

/-- C10: on the "stack initialized" signal the handler, for every status, issues exactly
one command, start top-level commissioning in initialization mode (after one log line),
adds no deferred call and leaves the store alone. -/
theorem skip_startup_signal (K : Consts) (err : Int) (s : State) :
    (esp_zb_app_signal_handler K esp_zb_app_signal_type_t.ESP_ZB_ZDO_SIGNAL_SKIP_STARTUP
        err s).calls =
        s.calls ++
          [Call.ESP_LOGI "Zigbee stack initialized" [],
           Call.esp_zb_bdb_start_top_level_commissioning
             K.ESP_ZB_BDB_MODE_INITIALIZATION] ∧
      commissioning_commands
        (esp_zb_app_signal_handler K esp_zb_app_signal_type_t.ESP_ZB_ZDO_SIGNAL_SKIP_STARTUP
          err s).calls =
        commissioning_commands s.calls ++ [K.ESP_ZB_BDB_MODE_INITIALIZATION] ∧
      deferred_calls
        (esp_zb_app_signal_handler K esp_zb_app_signal_type_t.ESP_ZB_ZDO_SIGNAL_SKIP_STARTUP
          err s).calls = deferred_calls s.calls ∧
      (esp_zb_app_signal_handler K esp_zb_app_signal_type_t.ESP_ZB_ZDO_SIGNAL_SKIP_STARTUP
          err s).endpoint_values = s.endpoint_values := by
  refine ⟨?_, ?_, ?_, ?_⟩ <;>
    simp [esp_zb_app_signal_handler, State.emit, commissioning_commands_append,
      deferred_calls_append, commissioning_commands, deferred_calls]

/-- C11: for every signal type other than stack-initialized, device-first-start,
device-reboot and steering, and for every status, the handler issues no commissioning
command, adds no deferred call and leaves the store alone; the only call it makes is
one diagnostic log line. -/
theorem other_signal_ignored (K : Consts) (sig : esp_zb_app_signal_type_t) (err : Int)
    (s : State)
    (h1 : sig ≠ esp_zb_app_signal_type_t.ESP_ZB_ZDO_SIGNAL_SKIP_STARTUP)
    (h2 : sig ≠ esp_zb_app_signal_type_t.ESP_ZB_BDB_SIGNAL_DEVICE_FIRST_START)
    (h3 : sig ≠ esp_zb_app_signal_type_t.ESP_ZB_BDB_SIGNAL_DEVICE_REBOOT)
    (h4 : sig ≠ esp_zb_app_signal_type_t.ESP_ZB_BDB_SIGNAL_STEERING) :
    (∃ line, (esp_zb_app_signal_handler K sig err s).calls =
        s.calls ++ [Call.ESP_LOGI "ZDO signal: %s (0x%x), status: %s" line]) ∧
      commissioning_commands (esp_zb_app_signal_handler K sig err s).calls =
        commissioning_commands s.calls ∧
      deferred_calls (esp_zb_app_signal_handler K sig err s).calls =
        deferred_calls s.calls ∧
      (esp_zb_app_signal_handler K sig err s).endpoint_values = s.endpoint_values := by
  cases sig with
  | ESP_ZB_ZDO_SIGNAL_SKIP_STARTUP => exact absurd rfl h1
  | ESP_ZB_BDB_SIGNAL_DEVICE_FIRST_START => exact absurd rfl h2
  | ESP_ZB_BDB_SIGNAL_DEVICE_REBOOT => exact absurd rfl h3
  | ESP_ZB_BDB_SIGNAL_STEERING => exact absurd rfl h4
  | other code =>
    refine ⟨⟨[(code : Int), (code : Int), err], rfl⟩, ?_, ?_, rfl⟩
    · simp [esp_zb_app_signal_handler, State.emit, commissioning_commands_append,
        commissioning_commands]
    · simp [esp_zb_app_signal_handler, State.emit, deferred_calls_append, deferred_calls]

/-- Witness for C11: signal code 60 with a failure status in the sample build. -/
theorem other_signal_ignored_witness :
    (∃ line, (esp_zb_app_signal_handler sampleConsts (esp_zb_app_signal_type_t.other 60)
        (-1) (State.init sampleConsts)).calls =
        (State.init sampleConsts).calls ++
          [Call.ESP_LOGI "ZDO signal: %s (0x%x), status: %s" line]) ∧
      commissioning_commands (esp_zb_app_signal_handler sampleConsts
        (esp_zb_app_signal_type_t.other 60) (-1) (State.init sampleConsts)).calls =
        commissioning_commands (State.init sampleConsts).calls ∧
      deferred_calls (esp_zb_app_signal_handler sampleConsts
        (esp_zb_app_signal_type_t.other 60) (-1) (State.init sampleConsts)).calls =
        deferred_calls (State.init sampleConsts).calls ∧
      (esp_zb_app_signal_handler sampleConsts (esp_zb_app_signal_type_t.other 60) (-1)
        (State.init sampleConsts)).endpoint_values =
        (State.init sampleConsts).endpoint_values :=
  other_signal_ignored sampleConsts (esp_zb_app_signal_type_t.other 60) (-1)
    (State.init sampleConsts) (by decide) (by decide) (by decide) (by decide)

/-- C13: for every endpoint id, value and state, `attr_cb` called with the on/off
cluster id and an attribute id other than the on/off attribute returns the state it was
given: the store is unchanged, no call is made and no deferred call is added. -/
theorem attr_cb_other_attribute (K : Consts) (status e attr_id v : Nat) (s : State)
    (ha : attr_id ≠ K.ESP_ZB_ZCL_ATTR_ON_OFF_ON_OFF_ID) :
    ∃ s1, attr_cb K status e K.ESP_ZB_ZCL_CLUSTER_ID_ON_OFF attr_id v s = some s1 ∧
      s1 = s ∧ s1.endpoint_values = s.endpoint_values ∧
      deferred_calls s1.calls = deferred_calls s.calls := by
  refine ⟨s, ?_, rfl, rfl, rfl⟩
  simp only [attr_cb, if_true, if_neg ha]

/-- Witness for C13: attribute 0x4000 of the on/off cluster on an endpoint id outside the
range. -/
theorem attr_cb_other_attribute_witness :
    ∃ s1, attr_cb sampleConsts 0 200 sampleConsts.ESP_ZB_ZCL_CLUSTER_ID_ON_OFF 16384 1
        store_with_two = some s1 ∧
      s1 = store_with_two ∧ s1.endpoint_values = store_with_two.endpoint_values ∧
      deferred_calls s1.calls = deferred_calls store_with_two.calls :=
  attr_cb_other_attribute sampleConsts 0 200 16384 1 store_with_two (by decide)

/-! ## The scenario with three endpoints -/

/-- C12, as stated, fails: in the scenario (N = 3, BASE = 10, all-off store), once
`attr_cb(10, ..., 1)` and the queued `toggle_endpoint(11)` have run, the only deferred
call ever submitted is `toggle_endpoint(11)`; no deferred call `toggle_endpoint(12)` has
been scheduled, because `toggle_endpoint` submits none. -/
theorem scenario_toggle_schedules_nothing :
    scenario_step2.map (fun s => deferred_calls s.calls) =
        some [(esp_zb_callback_t.toggle_endpoint, 11, 0)] ∧
      scenario_step2.map (fun s => decide
        ((esp_zb_callback_t.toggle_endpoint, 12, 0) ∈ deferred_calls s.calls)) =
        some false := by
  decide

/-- C12 (amended): in the scenario (N = 3, BASE = 10, all-off store),
`attr_cb(10, on/off, on/off, 1)` sets the entry of endpoint 10 to 1 and schedules
`toggle_endpoint(11)` with delay 0.  Running that call flips the entry of endpoint 11
from 0 to 1 and reports endpoint 11 = 1, and schedules nothing.  When the stack delivers
that change as `attr_cb(11, on/off, on/off, 1)`, `toggle_endpoint(12)` is scheduled.
Running it flips the entry of endpoint 12 from 0 to 1 and reports endpoint 12 = 1, and
when `attr_cb(12, on/off, on/off, 1)` is delivered, `toggle_endpoint(10)` is scheduled. -/
theorem scenario_cascade :
    (State.init scenarioConsts).endpoint_values = [0, 0, 0] ∧
      scenario_step1.map State.endpoint_values = some [1, 0, 0] ∧
      scenario_step1.map (fun s => deferred_calls s.calls) =
        some [(esp_zb_callback_t.toggle_endpoint, 11, 0)] ∧
      scenario_step2.map State.endpoint_values = some [1, 1, 0] ∧
      scenario_step2.map (fun s => attribute_updates s.calls) =
        some [(11, scenarioConsts.ESP_ZB_ZCL_CLUSTER_ID_ON_OFF,
          scenarioConsts.ESP_ZB_ZCL_CLUSTER_SERVER_ROLE,
          scenarioConsts.ESP_ZB_ZCL_ATTR_ON_OFF_ON_OFF_ID, 1)] ∧
      scenario_step2.map (fun s => deferred_calls s.calls) =
        some [(esp_zb_callback_t.toggle_endpoint, 11, 0)] ∧
      scenario_step3.map State.endpoint_values = some [1, 1, 0] ∧
      scenario_step3.map (fun s => deferred_calls s.calls) =
        some [(esp_zb_callback_t.toggle_endpoint, 11, 0),
          (esp_zb_callback_t.toggle_endpoint, 12, 0)] ∧
      scenario_step4.map State.endpoint_values = some [1, 1, 1] ∧
      scenario_step4.map (fun s => attribute_updates s.calls) =
        some [(11, scenarioConsts.ESP_ZB_ZCL_CLUSTER_ID_ON_OFF,
          scenarioConsts.ESP_ZB_ZCL_CLUSTER_SERVER_ROLE,
          scenarioConsts.ESP_ZB_ZCL_ATTR_ON_OFF_ON_OFF_ID, 1),
          (12, scenarioConsts.ESP_ZB_ZCL_CLUSTER_ID_ON_OFF,
          scenarioConsts.ESP_ZB_ZCL_CLUSTER_SERVER_ROLE,
          scenarioConsts.ESP_ZB_ZCL_ATTR_ON_OFF_ON_OFF_ID, 1)] ∧
      scenario_step4.map (fun s => deferred_calls s.calls) =
        some [(esp_zb_callback_t.toggle_endpoint, 11, 0),
          (esp_zb_callback_t.toggle_endpoint, 12, 0)] ∧
      scenario_step5.map State.endpoint_values = some [1, 1, 1] ∧
      scenario_step5.map (fun s => deferred_calls s.calls) =
        some [(esp_zb_callback_t.toggle_endpoint, 11, 0),
          (esp_zb_callback_t.toggle_endpoint, 12, 0),
          (esp_zb_callback_t.toggle_endpoint, 10, 0)] := by
  refine ⟨?_, ?_, ?_, ?_, ?_, ?_, ?_, ?_, ?_, ?_, ?_, ?_, ?_⟩ <;> decide

/-! ## `attr_cb` followed by the call it queued -/

/-- The write of `attr_cb` and the queued `toggle_endpoint`, for the endpoint with offset
`j`: the states after each of the two, with the stores they hold. -/
theorem attr_cb_then_toggle (K : Consts) (status j v : Nat) (s : State)
    (hj : j < K.LIGHT_ENDPOINTS) (hlen : s.endpoint_values.length = K.LIGHT_ENDPOINTS)
    (h256 : K.HA_ESP_LIGHT_ENDPOINT + K.LIGHT_ENDPOINTS ≤ 256) :
    ∃ s1 s2 y,
      attr_cb K status (K.HA_ESP_LIGHT_ENDPOINT + j) K.ESP_ZB_ZCL_CLUSTER_ID_ON_OFF
        K.ESP_ZB_ZCL_ATTR_ON_OFF_ON_OFF_ID v s = some s1 ∧
      s1.endpoint_values = s.endpoint_values.set j v ∧
      deferred_calls s1.calls = deferred_calls s.calls ++
        [(esp_zb_callback_t.toggle_endpoint,
          K.HA_ESP_LIGHT_ENDPOINT + (j + 1) % K.LIGHT_ENDPOINTS, 0)] ∧
      toggle_endpoint K (K.HA_ESP_LIGHT_ENDPOINT + (j + 1) % K.LIGHT_ENDPOINTS) s1
        = some s2 ∧
      s1.endpoint_values[(j + 1) % K.LIGHT_ENDPOINTS]? = some y ∧
      s2.endpoint_values =
        s1.endpoint_values.set ((j + 1) % K.LIGHT_ENDPOINTS) (complement y) := by
  have hN : K.LIGHT_ENDPOINTS ≠ 0 := by omega
  have hk : (j + 1) % K.LIGHT_ENDPOINTS < K.LIGHT_ENDPOINTS := Nat.mod_lt _ (by omega)
  have h1 := attr_cb_offset K status j v s (by omega) hN
  rw [next_endpoint_offset K j hj h256] at h1
  have hk1 : (j + 1) % K.LIGHT_ENDPOINTS < (s.endpoint_values.set j v).length := by
    simpa [hlen] using hk
  have h2 := toggle_endpoint_offset K ((j + 1) % K.LIGHT_ENDPOINTS)
    { endpoint_values := s.endpoint_values.set j v,
      calls := s.calls ++
        [Call.ESP_LOGI "endpoint %u on/off light set %d -> %d"
           [((K.HA_ESP_LIGHT_ENDPOINT + j : Nat) : Int), (s.endpoint_values[j] : Int),
            (v : Int)],
         Call.esp_zb_scheduler_alarm esp_zb_callback_t.toggle_endpoint
           (K.HA_ESP_LIGHT_ENDPOINT + (j + 1) % K.LIGHT_ENDPOINTS) 0] } hk1
  refine ⟨_, _, _, h1, rfl, ?_, h2, List.getElem?_eq_getElem hk1, rfl⟩
  simp [deferred_calls_append, deferred_calls]

/-- C14, as stated, fails in two ways.  With a single endpoint (N = 1, BASE = 10, store
`[0]`), after `attr_cb(10, ..., 1)` and the queued `toggle_endpoint(10)` the entry of
the target is 0, not the complement 1 of its value 0 before `attr_cb`.  With
BASE = 250 and N = 35 the id 255 is in range, the queued argument is truncated to 0 and
running the queued call leaves the array. -/
theorem attr_cb_write_visible_counterexample :
    in_range singleConsts 10 ∧
      next_endpoint singleConsts 10 = 10 ∧
      (State.init singleConsts).endpoint_values = [0] ∧
      ((attr_cb singleConsts 0 10 singleConsts.ESP_ZB_ZCL_CLUSTER_ID_ON_OFF
          singleConsts.ESP_ZB_ZCL_ATTR_ON_OFF_ON_OFF_ID 1 (State.init singleConsts)).bind
        (esp_zb_callback_t.invoke singleConsts singleConsts.ESP_OK
          esp_zb_callback_t.toggle_endpoint (next_endpoint singleConsts 10))).map
        State.endpoint_values = some [0] ∧
      in_range highConsts 255 ∧
      next_endpoint highConsts 255 = 0 ∧
      (attr_cb highConsts 0 255 highConsts.ESP_ZB_ZCL_CLUSTER_ID_ON_OFF
          highConsts.ESP_ZB_ZCL_ATTR_ON_OFF_ON_OFF_ID 1 (State.init highConsts)).isSome
        = true ∧
      (attr_cb highConsts 0 255 highConsts.ESP_ZB_ZCL_CLUSTER_ID_ON_OFF
          highConsts.ESP_ZB_ZCL_ATTR_ON_OFF_ON_OFF_ID 1 (State.init highConsts)).bind
        (esp_zb_callback_t.invoke highConsts highConsts.ESP_OK
          esp_zb_callback_t.toggle_endpoint (next_endpoint highConsts 255)) = none := by
  refine ⟨?_, ?_, ?_, ?_, ?_, ?_, ?_, ?_⟩ <;> decide

/-- C14 (amended): for every `e` in range with `BASE + N ≤ 256` and every value `v`,
`attr_cb` returns a state `s1` (the one in which the queued `toggle_endpoint(next)`
starts) whose store holds `v` at index `e - BASE`, although the deferred call was
submitted before the write.  Running the queued call on `s1` returns `s2`, whose entry
of `next` is the complement of the entry `y` that `s1` held there.  When `N > 1`, `y` is
the value `x` held before `attr_cb` and the entry of `e` is still `v`; when `N = 1`,
`next = e` and `y = v`. -/
theorem attr_cb_write_visible (K : Consts) (status e v : Nat) (ret : Int) (s : State)
    (he : in_range K e) (hlen : s.endpoint_values.length = K.LIGHT_ENDPOINTS)
    (h256 : K.HA_ESP_LIGHT_ENDPOINT + K.LIGHT_ENDPOINTS ≤ 256) :
    ∃ s1 s2 x y,
      attr_cb K status e K.ESP_ZB_ZCL_CLUSTER_ID_ON_OFF
        K.ESP_ZB_ZCL_ATTR_ON_OFF_ON_OFF_ID v s = some s1 ∧
      deferred_calls s1.calls = deferred_calls s.calls ++
        [(esp_zb_callback_t.toggle_endpoint, next_endpoint K e, 0)] ∧
      s1.endpoint_values[e - K.HA_ESP_LIGHT_ENDPOINT]? = some v ∧
      esp_zb_callback_t.invoke K ret esp_zb_callback_t.toggle_endpoint (next_endpoint K e) s1
        = some s2 ∧
      s.endpoint_values[next_endpoint K e - K.HA_ESP_LIGHT_ENDPOINT]? = some x ∧
      s1.endpoint_values[next_endpoint K e - K.HA_ESP_LIGHT_ENDPOINT]? = some y ∧
      s2.endpoint_values[next_endpoint K e - K.HA_ESP_LIGHT_ENDPOINT]?
        = some (if y = 0 then 1 else 0) ∧
      (1 < K.LIGHT_ENDPOINTS →
        y = x ∧ s2.endpoint_values[e - K.HA_ESP_LIGHT_ENDPOINT]? = some v) ∧
      (K.LIGHT_ENDPOINTS = 1 → next_endpoint K e = e ∧ y = v) := by
  obtain ⟨hj, heq⟩ := in_range_offset he
  generalize e - K.HA_ESP_LIGHT_ENDPOINT = j at hj heq
  subst heq
  obtain ⟨s1, s2, y, h1, hs1, hd, h2, hy, hs2⟩ := attr_cb_then_toggle K status j v s hj hlen h256
  have hk : (j + 1) % K.LIGHT_ENDPOINTS < K.LIGHT_ENDPOINTS := Nat.mod_lt _ (by omega)
  have hks : (j + 1) % K.LIGHT_ENDPOINTS < s.endpoint_values.length := by omega
  have hjs : j < s.endpoint_values.length := by omega
  have hk1 : (j + 1) % K.LIGHT_ENDPOINTS < s1.endpoint_values.length := by
    rw [hs1]; simpa using hks
  rw [next_endpoint_offset K j hj h256, Nat.add_sub_cancel_left]
  refine ⟨s1, s2, s.endpoint_values[(j + 1) % K.LIGHT_ENDPOINTS], y, h1, hd, ?_, h2,
    List.getElem?_eq_getElem hks, hy, ?_, ?_, ?_⟩
  · rw [hs1]; exact List.getElem?_set_self hjs
  · rw [hs2, List.getElem?_set_self hk1]
    by_cases hy0 : y = 0 <;> simp [complement, hy0]
  · intro hN
    have hne : (j + 1) % K.LIGHT_ENDPOINTS ≠ j := by
      intro h
      by_cases hlast : j + 1 = K.LIGHT_ENDPOINTS
      · rw [hlast, Nat.mod_self] at h; omega
      · rw [Nat.mod_eq_of_lt (by omega)] at h; omega
    constructor
    · rw [hs1, List.getElem?_set, if_neg (Ne.symm hne), List.getElem?_eq_getElem hks] at hy
      exact (Option.some.inj hy).symm
    · rw [hs2, List.getElem?_set, if_neg hne, hs1]
      exact List.getElem?_set_self hjs
  · intro hN
    have hj0 : j = 0 := by omega
    have hk0 : (j + 1) % K.LIGHT_ENDPOINTS = j := by
      rw [hj0, hN]
    constructor
    · rw [hk0]
    · rw [hk0, hs1, List.getElem?_set_self hjs] at hy
      exact (Option.some.inj hy).symm

/-- Witness for C14 (amended): the last endpoint (44) of the sample build receives 1. -/
theorem attr_cb_write_visible_witness :
    ∃ s1 s2 x y,
      attr_cb sampleConsts 0 44 sampleConsts.ESP_ZB_ZCL_CLUSTER_ID_ON_OFF
        sampleConsts.ESP_ZB_ZCL_ATTR_ON_OFF_ON_OFF_ID 1 (State.init sampleConsts) = some s1 ∧
      deferred_calls s1.calls = deferred_calls (State.init sampleConsts).calls ++
        [(esp_zb_callback_t.toggle_endpoint, next_endpoint sampleConsts 44, 0)] ∧
      s1.endpoint_values[44 - sampleConsts.HA_ESP_LIGHT_ENDPOINT]? = some 1 ∧
      esp_zb_callback_t.invoke sampleConsts 0 esp_zb_callback_t.toggle_endpoint
        (next_endpoint sampleConsts 44) s1 = some s2 ∧
      (State.init sampleConsts).endpoint_values[next_endpoint sampleConsts 44 -
        sampleConsts.HA_ESP_LIGHT_ENDPOINT]? = some x ∧
      s1.endpoint_values[next_endpoint sampleConsts 44 -
        sampleConsts.HA_ESP_LIGHT_ENDPOINT]? = some y ∧
      s2.endpoint_values[next_endpoint sampleConsts 44 -
        sampleConsts.HA_ESP_LIGHT_ENDPOINT]? = some (if y = 0 then 1 else 0) ∧
      (1 < sampleConsts.LIGHT_ENDPOINTS →
        y = x ∧ s2.endpoint_values[44 - sampleConsts.HA_ESP_LIGHT_ENDPOINT]? = some 1) ∧
      (sampleConsts.LIGHT_ENDPOINTS = 1 → next_endpoint sampleConsts 44 = 44 ∧ y = 1) :=
  attr_cb_write_visible sampleConsts 0 44 1 0 (State.init sampleConsts) (by decide)
    (by decide) (by decide)

/-- C15: for every endpoint id `e` in range with `BASE + N ≤ 256`, the index
`e - BASE` used by `attr_cb` lies in `[0, N)`, the target id it schedules lies in
`[BASE, BASE + N)` and its index in `[0, N)`; `attr_cb` returns, and the queued
`toggle_endpoint(target)` returns on the resulting state and on every store of the
declared size, so none of its array accesses is out of bounds. -/
theorem cascade_index_safety (K : Consts) (status e v : Nat) (s : State)
    (he : in_range K e) (hlen : s.endpoint_values.length = K.LIGHT_ENDPOINTS)
    (h256 : K.HA_ESP_LIGHT_ENDPOINT + K.LIGHT_ENDPOINTS ≤ 256) :
    (0 ≤ index K e ∧ index K e < (K.LIGHT_ENDPOINTS : Int)) ∧
      in_range K (next_endpoint K e) ∧
      (0 ≤ index K (next_endpoint K e) ∧
        index K (next_endpoint K e) < (K.LIGHT_ENDPOINTS : Int)) ∧
      (∃ s1 s2, attr_cb K status e K.ESP_ZB_ZCL_CLUSTER_ID_ON_OFF
          K.ESP_ZB_ZCL_ATTR_ON_OFF_ON_OFF_ID v s = some s1 ∧
        deferred_calls s1.calls = deferred_calls s.calls ++
          [(esp_zb_callback_t.toggle_endpoint, next_endpoint K e, 0)] ∧
        s1.endpoint_values.length = K.LIGHT_ENDPOINTS ∧
        toggle_endpoint K (next_endpoint K e) s1 = some s2 ∧
        s2.endpoint_values.length = K.LIGHT_ENDPOINTS) ∧
      (∀ t : State, t.endpoint_values.length = K.LIGHT_ENDPOINTS →
        (read_at t.endpoint_values (index K (next_endpoint K e))).isSome = true ∧
        (toggle_endpoint K (next_endpoint K e) t).isSome = true) := by
  obtain ⟨hj, heq⟩ := in_range_offset he
  generalize e - K.HA_ESP_LIGHT_ENDPOINT = j at hj heq
  subst heq
  have hk : (j + 1) % K.LIGHT_ENDPOINTS < K.LIGHT_ENDPOINTS := Nat.mod_lt _ (by omega)
  obtain ⟨s1, s2, y, h1, hs1, hd, h2, -, hs2⟩ := attr_cb_then_toggle K status j v s hj hlen h256
  rw [next_endpoint_offset K j hj h256]
  simp only [index_offset]
  refine ⟨by omega, by unfold in_range; omega, by omega, ⟨s1, s2, h1, hd, ?_, h2, ?_⟩, ?_⟩
  · rw [hs1]; simpa using hlen
  · rw [hs2, hs1]; simpa using hlen
  · intro t ht
    have hkt : (j + 1) % K.LIGHT_ENDPOINTS < t.endpoint_values.length := by omega
    rw [read_at_ofNat, toggle_endpoint_offset K _ t hkt, List.getElem?_eq_getElem hkt]
    exact ⟨rfl, rfl⟩

/-- Witness for C15: the last endpoint (44) of the sample build. -/
theorem cascade_index_safety_witness :
    (0 ≤ index sampleConsts 44 ∧
        index sampleConsts 44 < (sampleConsts.LIGHT_ENDPOINTS : Int)) ∧
      in_range sampleConsts (next_endpoint sampleConsts 44) ∧
      (0 ≤ index sampleConsts (next_endpoint sampleConsts 44) ∧
        index sampleConsts (next_endpoint sampleConsts 44)
          < (sampleConsts.LIGHT_ENDPOINTS : Int)) ∧
      (∃ s1 s2, attr_cb sampleConsts 0 44 sampleConsts.ESP_ZB_ZCL_CLUSTER_ID_ON_OFF
          sampleConsts.ESP_ZB_ZCL_ATTR_ON_OFF_ON_OFF_ID 1 (State.init sampleConsts)
            = some s1 ∧
        deferred_calls s1.calls = deferred_calls (State.init sampleConsts).calls ++
          [(esp_zb_callback_t.toggle_endpoint, next_endpoint sampleConsts 44, 0)] ∧
        s1.endpoint_values.length = sampleConsts.LIGHT_ENDPOINTS ∧
        toggle_endpoint sampleConsts (next_endpoint sampleConsts 44) s1 = some s2 ∧
        s2.endpoint_values.length = sampleConsts.LIGHT_ENDPOINTS) ∧
      (∀ t : State, t.endpoint_values.length = sampleConsts.LIGHT_ENDPOINTS →
        (read_at t.endpoint_values (index sampleConsts (next_endpoint sampleConsts 44))).isSome
          = true ∧
        (toggle_endpoint sampleConsts (next_endpoint sampleConsts 44) t).isSome = true) :=
  cascade_index_safety sampleConsts 0 44 1 (State.init sampleConsts) (by decide)
    (by decide) (by decide)

/-! ## The boolean-store invariant -/

theorem boolean_store_set (s : State) (j y : Nat) (hs : boolean_store s)
    (hy : y = 0 ∨ y = 1) :
    ∀ x ∈ s.endpoint_values.set j y, x = 0 ∨ x = 1 := by
  intro x hx
  rcases List.mem_or_eq_of_mem_set hx with h | h
  · exact hs x h
  · rw [h]; exact hy

/-- C16: every entry of the initial store is 0 or 1.  For every `e` in range,
`toggle_endpoint e` returns, the entry it writes is 0 or 1 whatever the store held, and
it preserves "every entry is 0 or 1".  `attr_cb` (any cluster and attribute id) returns
and preserves the predicate when the delivered value is 0 or 1; on the on/off cluster
and attribute the entry it writes is exactly the delivered byte `v`. -/
theorem boolean_store_invariant (K : Consts) (status e cluster_id attr_id v : Nat)
    (s : State) (he : in_range K e)
    (hlen : s.endpoint_values.length = K.LIGHT_ENDPOINTS) :
    boolean_store (State.init K) ∧
      (∃ s1 y, toggle_endpoint K e s = some s1 ∧
        s1.endpoint_values[e - K.HA_ESP_LIGHT_ENDPOINT]? = some y ∧ (y = 0 ∨ y = 1) ∧
        (boolean_store s → boolean_store s1)) ∧
      (∃ s1, attr_cb K status e cluster_id attr_id v s = some s1 ∧
        (boolean_store s → (v = 0 ∨ v = 1) → boolean_store s1)) ∧
      (∃ s1, attr_cb K status e K.ESP_ZB_ZCL_CLUSTER_ID_ON_OFF
          K.ESP_ZB_ZCL_ATTR_ON_OFF_ON_OFF_ID v s = some s1 ∧
        s1.endpoint_values[e - K.HA_ESP_LIGHT_ENDPOINT]? = some v) := by
  obtain ⟨hj, heq⟩ := in_range_offset he
  generalize e - K.HA_ESP_LIGHT_ENDPOINT = j at hj heq
  subst heq
  have hjs : j < s.endpoint_values.length := by omega
  have hN : K.LIGHT_ENDPOINTS ≠ 0 := by omega
  have hc : complement s.endpoint_values[j] = 0 ∨ complement s.endpoint_values[j] = 1 := by
    by_cases h0 : s.endpoint_values[j] = 0 <;> simp [complement, h0]
  refine ⟨?_, ?_, ?_, ?_⟩
  · intro x hx
    simp only [State.init, List.mem_replicate] at hx
    exact Or.inl hx.2
  · refine ⟨_, complement s.endpoint_values[j], toggle_endpoint_offset K j s hjs,
      List.getElem?_set_self hjs, hc, ?_⟩
    intro hs
    exact boolean_store_set s j _ hs hc
  · by_cases hcl : cluster_id = K.ESP_ZB_ZCL_CLUSTER_ID_ON_OFF
    · by_cases hat : attr_id = K.ESP_ZB_ZCL_ATTR_ON_OFF_ON_OFF_ID
      · subst hcl hat
        refine ⟨_, attr_cb_offset K status j v s hjs hN, ?_⟩
        intro hs hv
        exact boolean_store_set s j v hs hv
      · refine ⟨s, ?_, fun hs _ => hs⟩
        simp only [attr_cb, if_pos hcl, if_neg hat]
    · refine ⟨s.emit (Call.ESP_LOGI "cluster:0x%x, attribute:0x%x changed "
        [(cluster_id : Int), (attr_id : Int)]), ?_, fun hs _ => hs⟩
      simp only [attr_cb, if_neg hcl]
  · exact ⟨_, attr_cb_offset K status j v s hjs hN, List.getElem?_set_self hjs⟩

/-- Witness for C16: endpoint 10 of the sample build on the initial (all-off) store. -/
theorem boolean_store_invariant_witness :
    boolean_store (State.init sampleConsts) ∧
      (∃ s1 y, toggle_endpoint sampleConsts 10 (State.init sampleConsts) = some s1 ∧
        s1.endpoint_values[10 - sampleConsts.HA_ESP_LIGHT_ENDPOINT]? = some y ∧
        (y = 0 ∨ y = 1) ∧
        (boolean_store (State.init sampleConsts) → boolean_store s1)) ∧
      (∃ s1, attr_cb sampleConsts 0 10 6 0 1 (State.init sampleConsts) = some s1 ∧
        (boolean_store (State.init sampleConsts) → ((1 : Nat) = 0 ∨ (1 : Nat) = 1) →
          boolean_store s1)) ∧
      (∃ s1, attr_cb sampleConsts 0 10 sampleConsts.ESP_ZB_ZCL_CLUSTER_ID_ON_OFF
          sampleConsts.ESP_ZB_ZCL_ATTR_ON_OFF_ON_OFF_ID 1 (State.init sampleConsts)
            = some s1 ∧
        s1.endpoint_values[10 - sampleConsts.HA_ESP_LIGHT_ENDPOINT]? = some 1) :=
  boolean_store_invariant sampleConsts 0 10 6 0 1 (State.init sampleConsts) (by decide)
    (by decide)

/-! ## Endpoint ids outside the range -/

theorem tmod_neg_natCast (m n : Nat) :
    Int.tmod (-(m : Int)) (n : Int) = -((m % n : Nat) : Int) := by
  cases m with
  | zero => simp
  | succ m => rfl

theorem read_at_out_of_range (K : Consts) (e : Nat) (a : List Nat)
    (hlen : a.length = K.LIGHT_ENDPOINTS) (he : ¬ in_range K e) :
    read_at a (index K e) = none := by
  unfold read_at index
  by_cases h : (0 : Int) ≤ (e : Int) - (K.HA_ESP_LIGHT_ENDPOINT : Int)
  · rw [if_pos h]
    apply List.getElem?_eq_none
    unfold in_range at he
    omega
  · rw [if_neg h]

/-- C17: `attr_cb` has no range check: on an 8-bit endpoint id outside the range it
reaches the access outside `endpoint_values`.  The target it computes (truncating
remainder, then narrowing to 8 bits, `BASE + N ≤ 256`) lies in `[BASE, BASE + N)` for
every 8-bit `e ≥ BASE - 1`, in particular for every `e ≥ BASE + N`; when `BASE ≤ N` it
is `e + 1`, hence below `BASE`, for every `e < BASE - 1`. -/
theorem attr_cb_out_of_range_target (K : Consts) (status e v : Nat) (s : State)
    (hN : 0 < K.LIGHT_ENDPOINTS)
    (h256 : K.HA_ESP_LIGHT_ENDPOINT + K.LIGHT_ENDPOINTS ≤ 256) (he8 : e < 256)
    (hlen : s.endpoint_values.length = K.LIGHT_ENDPOINTS) :
    (¬ in_range K e →
        attr_cb K status e K.ESP_ZB_ZCL_CLUSTER_ID_ON_OFF
          K.ESP_ZB_ZCL_ATTR_ON_OFF_ON_OFF_ID v s = none) ∧
      (K.HA_ESP_LIGHT_ENDPOINT ≤ e + 1 → in_range K (next_endpoint K e)) ∧
      (K.HA_ESP_LIGHT_ENDPOINT + K.LIGHT_ENDPOINTS ≤ e → in_range K (next_endpoint K e)) ∧
      (K.HA_ESP_LIGHT_ENDPOINT ≤ K.LIGHT_ENDPOINTS → e + 1 < K.HA_ESP_LIGHT_ENDPOINT →
        next_endpoint K e = e + 1 ∧ next_endpoint K e < K.HA_ESP_LIGHT_ENDPOINT) := by
  have hup : K.HA_ESP_LIGHT_ENDPOINT ≤ e + 1 → in_range K (next_endpoint K e) := by
    intro hge
    have h : ((e : Int) - (K.HA_ESP_LIGHT_ENDPOINT : Int)) + 1
        = ((e + 1 - K.HA_ESP_LIGHT_ENDPOINT : Nat) : Int) := by omega
    have hm := Nat.mod_lt (e + 1 - K.HA_ESP_LIGHT_ENDPOINT) hN
    have hsum : (((e + 1 - K.HA_ESP_LIGHT_ENDPOINT) % K.LIGHT_ENDPOINTS : Nat) : Int)
        + (K.HA_ESP_LIGHT_ENDPOINT : Int)
        = (((e + 1 - K.HA_ESP_LIGHT_ENDPOINT) % K.LIGHT_ENDPOINTS
            + K.HA_ESP_LIGHT_ENDPOINT : Nat) : Int) := by push_cast; rfl
    unfold next_endpoint next_endpoint_expr
    rw [h, ← Int.ofNat_tmod, hsum, to_uint8_ofNat _ (by omega)]
    unfold in_range
    omega
  refine ⟨?_, hup, fun hge => hup (by omega), ?_⟩
  · intro he
    have hr := read_at_out_of_range K e s.endpoint_values hlen he
    simp [attr_cb, Nat.pos_iff_ne_zero.mp hN, hr]
  · intro hBN hlt
    have h : ((e : Int) - (K.HA_ESP_LIGHT_ENDPOINT : Int)) + 1
        = -((K.HA_ESP_LIGHT_ENDPOINT - 1 - e : Nat) : Int) := by omega
    have hmod : (K.HA_ESP_LIGHT_ENDPOINT - 1 - e) % K.LIGHT_ENDPOINTS
        = K.HA_ESP_LIGHT_ENDPOINT - 1 - e := Nat.mod_eq_of_lt (by omega)
    have hsum : -((K.HA_ESP_LIGHT_ENDPOINT - 1 - e : Nat) : Int)
        + (K.HA_ESP_LIGHT_ENDPOINT : Int) = ((e + 1 : Nat) : Int) := by omega
    have hval : next_endpoint K e = e + 1 := by
      unfold next_endpoint next_endpoint_expr
      rw [h, tmod_neg_natCast, hmod, hsum, to_uint8_ofNat _ (by omega)]
    rw [hval]
    exact ⟨rfl, hlt⟩

/-- Witness for C17: endpoint id 3, below the range of the sample build (BASE = 10,
N = 35). -/
theorem attr_cb_out_of_range_target_witness :
    (¬ in_range sampleConsts 3 →
        attr_cb sampleConsts 0 3 sampleConsts.ESP_ZB_ZCL_CLUSTER_ID_ON_OFF
          sampleConsts.ESP_ZB_ZCL_ATTR_ON_OFF_ON_OFF_ID 1 (State.init sampleConsts) = none) ∧
      (sampleConsts.HA_ESP_LIGHT_ENDPOINT ≤ 3 + 1 →
        in_range sampleConsts (next_endpoint sampleConsts 3)) ∧
      (sampleConsts.HA_ESP_LIGHT_ENDPOINT + sampleConsts.LIGHT_ENDPOINTS ≤ 3 →
        in_range sampleConsts (next_endpoint sampleConsts 3)) ∧
      (sampleConsts.HA_ESP_LIGHT_ENDPOINT ≤ sampleConsts.LIGHT_ENDPOINTS →
        3 + 1 < sampleConsts.HA_ESP_LIGHT_ENDPOINT →
        next_endpoint sampleConsts 3 = 3 + 1 ∧
          next_endpoint sampleConsts 3 < sampleConsts.HA_ESP_LIGHT_ENDPOINT) :=
  attr_cb_out_of_range_target sampleConsts 0 3 1 (State.init sampleConsts) (by decide)
    (by decide) (by decide) (by decide)

end EspZbLight
